import Mathlib

/-!
Shallow embedding of `HumanCheck_v7.py`, an ECG annotation GUI tool.

The program keeps a pandas dataframe (`self.df`) of annotation rows and
persists it to `annotations.csv` on every label edit.  We model the
dataframe as a list of rows together with its list of column names
(pandas `.at` can create a column, and `start_recheck` tests column
presence), a pandas `NaN` cell as `none`, and the annotator window state
(`user`, `root`, `tasks`, `cur`, `recheck_mode`, the label widgets and
the canvas) as an explicit record `AnnState`.

External effects are passed as explicit parameters:
* `wfdb.rdrecord` becomes `rd : String → Except String String`
  (task name ↦ record handle or exception message);
* `QFileDialog.getExistingDirectory` becomes an `Option String`
  (`none` = dialog cancelled);
* `root.iterdir()` becomes a `List String` of sub-directory names;
* `(root / f).exists()` becomes `existsDir : String → Bool`;
* the bytes of `annotations.csv` on disk are mirrored in the state
  field `fileOnDisk`, `none` meaning the file does not exist.

A Python call that would raise (`IndexError` on `tasks[cur]`,
`AttributeError` on `self.root.name` when `root` is `None`) is modelled
by returning `none` from an `Option`-valued step.
-/

namespace HumanCheck

/-- One row of the annotations dataframe.  `none` models a pandas `NaN`
cell (second-pass cells are left unset when a row is first appended). -/
structure Row where
  filename : String
  foldername : String
  is_malignant : Option Int
  annotator : Option String
  is_malignant_2nd : Option Int
  annotator_2nd : Option String
  deriving DecidableEq

/-- The dataframe: its column names and its rows.  Row labels coincide
with positions (the program only builds range-indexed frames: a fresh
frame, `read_csv` with the default index, and `df.loc[len(df)] = ...`
appends). -/
structure Df where
  cols : List String
  rows : List Row
  deriving DecidableEq

/-- The six schema columns created by `_load_db` for a fresh store. -/
def schemaCols : List String :=
  ["filename", "foldername", "is_malignant", "annotator",
   "is_malignant_2nd", "annotator_2nd"]

/-- `_load_db`, lines 93-112.  `onDisk = none`: `annotations.csv` does
not exist; `onDisk = some none`: the file exists but `pd.read_csv`
raises (the `except Exception: pass` swallows it); `onDisk = some
(some parsed)`: the file exists and parses to `parsed`. -/
def loadDb (onDisk : Option (Option Df)) : Df :=
  match onDisk with
  | some (some parsed) => parsed
  | some none => ⟨schemaCols, []⟩
  | none => ⟨schemaCols, []⟩

/-- Rendering of one cell for `to_csv` (pandas writes an empty string
for `NaN`). -/
def cellStr (r : Row) (c : String) : String :=
  if c = "filename" then r.filename
  else if c = "foldername" then r.foldername
  else if c = "is_malignant" then
    match r.is_malignant with
    | some v => toString v
    | none => ""
  else if c = "annotator" then
    match r.annotator with
    | some a => a
    | none => ""
  else if c = "is_malignant_2nd" then
    match r.is_malignant_2nd with
    | some v => toString v
    | none => ""
  else if c = "annotator_2nd" then
    match r.annotator_2nd with
    | some a => a
    | none => ""
  else ""

/-- `df.to_csv(path, index=False)`: header line then one line per row,
in dataframe order. -/
def to_csv (df : Df) : String :=
  String.intercalate "\n"
    (String.intercalate "," df.cols ::
      df.rows.map (fun r => String.intercalate "," (df.cols.map (cellStr r))))

/-- The annotator window state.  `tasks` holds the task folder names
(`target.name` of the `Path` objects the program stores), `canvas`
holds the record currently drawn (`none` = cleared figure), and
`fileOnDisk` mirrors the bytes of `annotations.csv` (`none` = absent). -/
structure AnnState where
  user : String
  root : Option String
  tasks : List String
  cur : Int
  recheck_mode : Bool
  df : Df
  fileOnDisk : Option String
  status_label : String
  status_bar : String
  canvas : Option String
  deriving DecidableEq

/-- `show_current`, lines 255-278.  `rd` models `wfdb.rdrecord`:
`Except.error e` is a raised exception with message `e`. -/
def show_current (rd : String → Except String String) (s : AnnState) :
    AnnState :=
  if s.cur < 0 then s
  else if s.cur ≥ (s.tasks.length : Int) then s
  else
    match s.tasks[s.cur.toNat]? with
    | none => s
    | some target =>
      match rd target with
      | Except.ok record =>
        let tag := if s.recheck_mode then "[复核]" else "[首轮]"
        { s with
          canvas := some record
          status_label := tag ++ "\n" ++ target ++ "\n(" ++
            toString (s.cur + 1) ++ "/" ++ toString s.tasks.length ++ ")"
          status_bar := "就绪" }
      | Except.error e =>
        { s with
          status_label := "数据异常\n" ++ target
          status_bar := "读取失败: " ++ e
          canvas := none }

/-- `next`, lines 310-316. -/
def next (rd : String → Except String String) (s : AnnState) : AnnState :=
  if s.cur ≥ (s.tasks.length : Int) - 1 then
    { s with status_bar := "全部完成" }
  else
    show_current rd { s with cur := s.cur + 1 }

/-- `prev`, lines 318-323. -/
def prev (rd : String → Except String String) (s : AnnState) : AnnState :=
  if s.cur ≤ 0 then s
  else
    show_current rd { s with cur := s.cur - 1 }

/-- Position of the first row whose `filename` equals `name`: the model
of `mask = df['filename'].astype(str) == name` followed by
`df[mask].index[0]` (`none` when `mask.any()` is false). -/
def firstMatchIdx (name : String) : List Row → Option Nat
  | [] => none
  | r :: rs =>
    if r.filename = name then some 0
    else (firstMatchIdx name rs).map (· + 1)

/-- `df.at[idx, col] = v` creates column `col` when it is absent. -/
def ensureCol (cols : List String) (c : String) : List String :=
  if c ∈ cols then cols else cols ++ [c]

/-- The in-place cell writes of `save_and_next` on a found row
(lines 291-296): second-pass cells in recheck mode, first-pass cells
otherwise. -/
def applyLabel (recheck : Bool) (user : String) (val : Int) (r : Row) :
    Row :=
  if recheck then
    { r with is_malignant_2nd := some val, annotator_2nd := some user }
  else
    { r with is_malignant := some val, annotator := some user }

/-- Column effect of the two `.at` writes in `save_and_next`
(lines 291-296): each write creates its column when absent. -/
def labelCols (recheck : Bool) (cols : List String) : List String :=
  if recheck then
    ensureCol (ensureCol cols "is_malignant_2nd") "annotator_2nd"
  else
    ensureCol (ensureCol cols "is_malignant") "annotator"

/-- The dataframe after the in-place branch of `save_and_next`
(lines 289-296): row `idx` (currently `r`) is overwritten. -/
def foundDf (df : Df) (recheck : Bool) (user : String) (val : Int)
    (idx : Nat) (r : Row) : Df :=
  ⟨labelCols recheck df.cols, df.rows.set idx (applyLabel recheck user val r)⟩

/-- The row dict of the append branch of `save_and_next`
(lines 298-303): the two second-pass columns are left `NaN`. -/
def newRow (name rootName : String) (val : Int) (user : String) : Row :=
  ⟨name, rootName, some val, some user, none, none⟩

/-- The dataframe after the append branch of `save_and_next`
(`df.loc[len(df)] = {...}`). -/
def appendDf (df : Df) (name rootName : String) (val : Int)
    (user : String) : Df :=
  ⟨df.cols, df.rows ++ [newRow name rootName val user]⟩

/-- `save_and_next`, lines 280-308.  Returns `none` when the Python
code would raise: `tasks[cur]` out of range, or `self.root.name` with
`root = None` in the append branch.  After the row edit the whole
dataframe is serialized to `fileOnDisk`, then `next` runs. -/
def save_and_next (rd : String → Except String String) (val : Int)
    (s : AnnState) : Option AnnState :=
  if s.cur < 0 then some s
  else if s.tasks.isEmpty then some s
  else
    match s.tasks[s.cur.toNat]? with
    | none => none
    | some name =>
      match firstMatchIdx name s.df.rows with
      | some idx =>
        match s.df.rows[idx]? with
        | none => none
        | some r =>
          let df' := foundDf s.df s.recheck_mode s.user val idx r
          some (next rd
            { s with df := df', fileOnDisk := some (to_csv df') })
      | none =>
        match s.root with
        | none => none
        | some rootName =>
          let df' := appendDf s.df name rootName val s.user
          some (next rd
            { s with df := df', fileOnDisk := some (to_csv df') })

/-- `import_folder`, lines 206-223.  `picked` is the directory-picker
result, `subdirs` the names of the immediate sub-directories of the
picked root (`d.name for d in root.iterdir() if d.is_dir()`, unsorted;
the code sorts them). -/
def import_folder (rd : String → Except String String)
    (picked : Option String) (subdirs : List String) (s : AnnState) :
    AnnState :=
  match picked with
  | none => s
  | some path =>
    let s1 := { s with root := some path, recheck_mode := false }
    let done := s1.df.rows.map Row.filename
    let dirs := subdirs.mergeSort (fun a b => decide (a ≤ b))
    let tasks := dirs.filter (fun d => !(done.contains d))
    let s2 := { s1 with tasks := tasks }
    if tasks.isEmpty then s2
    else show_current rd { s2 with cur := 0 }

/-- The row filter of `start_recheck`, lines 230-232:
`mask = df['is_malignant'] == 999`, intersected with
`df['is_malignant_2nd'].isna()` when that column exists. -/
def recheckMask (df : Df) (r : Row) : Bool :=
  let m := r.is_malignant == some 999
  if "is_malignant_2nd" ∈ df.cols then m && r.is_malignant_2nd.isNone
  else m

/-- `targets = df[mask]['filename'].tolist()`, line 234. -/
def recheckTargets (df : Df) : List String :=
  (df.rows.filter (recheckMask df)).map Row.filename

/-- `start_recheck`, lines 225-253.  `pickedRoot` is the fallback
directory picker used when no root is set, `existsDir f` models
`(root / str(f)).exists()`. -/
def start_recheck (rd : String → Except String String)
    (pickedRoot : Option String) (existsDir : String → Bool)
    (s : AnnState) : AnnState :=
  if s.df.rows.isEmpty then s
  else
    let targets := recheckTargets s.df
    if targets.isEmpty then s
    else
      let rootOpt :=
        match s.root with
        | some r => some r
        | none => pickedRoot
      match rootOpt with
      | none => s
      | some rootName =>
        let tasks := targets.filter existsDir
        show_current rd
          { s with
            root := some rootName
            tasks := tasks
            recheck_mode := true
            cur := 0 }

/-! ### Concrete fixtures used to exercise the embedding -/

/-- A reader for which every record loads. -/
def rdW : String → Except String String := fun t => Except.ok ("rec:" ++ t)

/-- A reader for which every record read raises. -/
def rdE : String → Except String String := fun t => Except.error ("bad:" ++ t)

def rowA : Row := ⟨"a", "root", some 0, some "u", none, none⟩

def rowB : Row := ⟨"b", "root", some 999, some "u", none, none⟩

def rowC : Row := ⟨"c", "root", some 999, some "u", none, none⟩

def dfW : Df := ⟨schemaCols, [rowA, rowB]⟩

/-- First-pass session: rows `a`, `b` stored, tasks `a`, `b`, `c`. -/
def sW : AnnState :=
  ⟨"u2", some "root", ["a", "b", "c"], 0, false, dfW, none, "", "", none⟩

/-- `save_and_next rdW 1 sW`: task `a` is found in the store, so its
row is overwritten in place, the store is rewritten to disk, and the
session advances to task `b`. -/
def sWafter : AnnState :=
  ⟨"u2", some "root", ["a", "b", "c"], 1, false,
   ⟨schemaCols, [⟨"a", "root", some 1, some "u2", none, none⟩, rowB]⟩,
   some (to_csv ⟨schemaCols,
     [⟨"a", "root", some 1, some "u2", none, none⟩, rowB]⟩),
   "[首轮]\nb\n(2/3)", "就绪", some "rec:b"⟩

/-- `save_and_next rdW 1 { sW with cur := 2 }`: task `c` has no row,
so one is appended; `c` is the last task, so `cur` stays put. -/
def sWcafter : AnnState :=
  ⟨"u2", some "root", ["a", "b", "c"], 2, false,
   ⟨schemaCols, [rowA, rowB, newRow "c" "root" 1 "u2"]⟩,
   some (to_csv ⟨schemaCols, [rowA, rowB, newRow "c" "root" 1 "u2"]⟩),
   "", "全部完成", none⟩

/-- Recheck session on the same store, with `b` as the only task. -/
def sR : AnnState :=
  ⟨"u2", some "root", ["b"], 0, true, dfW, none, "", "", none⟩

/-- `save_and_next rdW 7 sR`: the second-pass cells of row `b` are
written in place. -/
def sRafter : AnnState :=
  ⟨"u2", some "root", ["b"], 0, true,
   ⟨schemaCols, [rowA, ⟨"b", "root", some 999, some "u", some 7, some "u2"⟩]⟩,
   some (to_csv ⟨schemaCols,
     [rowA, ⟨"b", "root", some 999, some "u", some 7, some "u2"⟩]⟩),
   "", "全部完成", none⟩

def dfR : Df := ⟨schemaCols, [rowA, rowB, rowC]⟩

/-- Idle session whose store has two unknown-labeled rows `b`, `c`. -/
def sRk : AnnState :=
  ⟨"u2", some "root", [], -1, false, dfR, none, "", "", none⟩

/-- A filesystem on which only the folder `b` exists under the root. -/
def exW : String → Bool := fun f => f == "b"

/-! ### Frame lemmas: the UI-only steps never touch the store -/

theorem show_current_frame (rd : String → Except String String)
    (s : AnnState) :
    (show_current rd s).df = s.df ∧
    (show_current rd s).tasks = s.tasks ∧
    (show_current rd s).cur = s.cur ∧
    (show_current rd s).fileOnDisk = s.fileOnDisk ∧
    (show_current rd s).recheck_mode = s.recheck_mode ∧
    (show_current rd s).root = s.root ∧
    (show_current rd s).user = s.user := by
  unfold show_current
  repeat' split
  all_goals exact ⟨rfl, rfl, rfl, rfl, rfl, rfl, rfl⟩

theorem next_frame (rd : String → Except String String) (s : AnnState) :
    (next rd s).df = s.df ∧
    (next rd s).tasks = s.tasks ∧
    (next rd s).fileOnDisk = s.fileOnDisk ∧
    (next rd s).recheck_mode = s.recheck_mode := by
  unfold next
  split
  · exact ⟨rfl, rfl, rfl, rfl⟩
  · exact ⟨(show_current_frame rd _).1, (show_current_frame rd _).2.1,
      (show_current_frame rd _).2.2.2.1,
      (show_current_frame rd _).2.2.2.2.1⟩

theorem next_cur (rd : String → Except String String) (s : AnnState) :
    (next rd s).cur =
      if (s.tasks.length : Int) - 1 ≤ s.cur then s.cur else s.cur + 1 := by
  unfold next
  split
  · rfl
  · exact (show_current_frame rd _).2.2.1

theorem prev_cur (rd : String → Except String String) (s : AnnState) :
    (prev rd s).cur = if s.cur ≤ 0 then s.cur else s.cur - 1 := by
  unfold prev
  split
  · rfl
  · exact (show_current_frame rd _).2.2.1

/-! ### Lemmas about the filename lookup -/

theorem firstMatchIdx_none {name : String} {rows : List Row}
    (h : firstMatchIdx name rows = none) :
    ∀ r ∈ rows, r.filename ≠ name := by
  induction rows with
  | nil => intro r hr; simp at hr
  | cons a as ih =>
    intro r hr
    unfold firstMatchIdx at h
    by_cases ha : a.filename = name
    · rw [if_pos ha] at h; exact absurd h (by simp)
    · rw [if_neg ha] at h
      rcases List.mem_cons.mp hr with hra | hras
      · rw [hra]; exact ha
      · exact ih (Option.map_eq_none'.mp h) r hras

theorem firstMatchIdx_some {name : String} {rows : List Row} {idx : Nat}
    (h : firstMatchIdx name rows = some idx) :
    ∃ r, rows[idx]? = some r ∧ r.filename = name := by
  induction rows generalizing idx with
  | nil => simp [firstMatchIdx] at h
  | cons a as ih =>
    unfold firstMatchIdx at h
    by_cases ha : a.filename = name
    · rw [if_pos ha] at h
      obtain rfl : idx = 0 := by
        have := Option.some.inj h; omega
      exact ⟨a, by simp, ha⟩
    · rw [if_neg ha] at h
      obtain ⟨j, hj, hidx⟩ := Option.map_eq_some'.mp h
      obtain ⟨r, hr, hrn⟩ := ih hj
      refine ⟨r, ?_, hrn⟩
      rw [← hidx]
      simpa using hr

/-! ### Unfolding lemmas for the two branches of `save_and_next` -/

theorem save_and_next_found (rd : String → Except String String)
    (val : Int) (s : AnnState) (name : String) (idx : Nat) (r : Row)
    (hcur : 0 ≤ s.cur)
    (hnm : s.tasks[s.cur.toNat]? = some name)
    (hfm : firstMatchIdx name s.df.rows = some idx)
    (hr : s.df.rows[idx]? = some r) :
    save_and_next rd val s =
      some (next rd
        { s with
          df := foundDf s.df s.recheck_mode s.user val idx r
          fileOnDisk :=
            some (to_csv (foundDf s.df s.recheck_mode s.user val idx r)) }) := by
  have hlt : s.cur.toNat < s.tasks.length := by
    by_contra hge
    rw [List.getElem?_eq_none (by omega)] at hnm
    exact absurd hnm (by simp)
  have hne : ¬ (s.tasks.isEmpty = true) := by
    rw [List.isEmpty_iff]
    intro hnil
    rw [hnil] at hlt
    simp at hlt
  unfold save_and_next
  rw [if_neg (by omega), if_neg hne, hnm]
  dsimp only
  rw [hfm]
  dsimp only
  rw [hr]

theorem save_and_next_append (rd : String → Except String String)
    (val : Int) (s : AnnState) (name rootName : String)
    (hcur : 0 ≤ s.cur)
    (hnm : s.tasks[s.cur.toNat]? = some name)
    (hfm : firstMatchIdx name s.df.rows = none)
    (hroot : s.root = some rootName) :
    save_and_next rd val s =
      some (next rd
        { s with
          df := appendDf s.df name rootName val s.user
          fileOnDisk :=
            some (to_csv (appendDf s.df name rootName val s.user)) }) := by
  have hlt : s.cur.toNat < s.tasks.length := by
    by_contra hge
    rw [List.getElem?_eq_none (by omega)] at hnm
    exact absurd hnm (by simp)
  have hne : ¬ (s.tasks.isEmpty = true) := by
    rw [List.isEmpty_iff]
    intro hnil
    rw [hnil] at hlt
    simp at hlt
  unfold save_and_next
  rw [if_neg (by omega), if_neg hne, hnm]
  dsimp only
  rw [hfm]
  dsimp only
  rw [hroot]

/-! ### Further helper lemmas -/

theorem map_filename_set {rows : List Row} {idx : Nat} {r r' : Row}
    (hget : rows[idx]? = some r) (hf : r'.filename = r.filename) :
    (rows.set idx r').map Row.filename = rows.map Row.filename := by
  induction rows generalizing idx with
  | nil => simp at hget
  | cons a as ih =>
    cases idx with
    | zero =>
      simp only [List.getElem?_cons_zero, Option.some.injEq] at hget
      subst hget
      simp [hf]
    | succ n =>
      simp only [List.getElem?_cons_succ] at hget
      simp [ih hget]

theorem recheckMask_eq_true {df : Df} {r : Row} :
    recheckMask df r = true ↔
      (r.is_malignant = some 999 ∧
        ("is_malignant_2nd" ∈ df.cols → r.is_malignant_2nd = none)) := by
  simp only [recheckMask]
  by_cases hc : "is_malignant_2nd" ∈ df.cols
  · rw [if_pos hc]
    simp [hc, Option.isNone_iff_eq_none]
  · rw [if_neg hc]
    simp [hc]

/-! ### The claims -/

/-- C1: whenever `save_and_next` runs with a valid current task
(`cur` in range, tasks non-empty) and completes, after updating or
appending the row it writes the entire in-memory dataframe to the
annotations CSV: the file content equals the serialization of the full
updated dataframe (a full rewrite, not an incremental append). -/
theorem C1_save_and_next_full_rewrite (rd : String → Except String String)
    (val : Int) (s s' : AnnState)
    (hcur : 0 ≤ s.cur) (hlt : s.cur.toNat < s.tasks.length)
    (h : save_and_next rd val s = some s') :
    s'.fileOnDisk = some (to_csv s'.df) := by
  have hnm : s.tasks[s.cur.toNat]? = some (s.tasks[s.cur.toNat]) :=
    List.getElem?_eq_getElem hlt
  cases hfm : firstMatchIdx (s.tasks[s.cur.toNat]) s.df.rows with
  | some idx =>
    obtain ⟨r, hr, -⟩ := firstMatchIdx_some hfm
    rw [save_and_next_found rd val s _ idx r hcur hnm hfm hr] at h
    obtain rfl := Option.some.inj h
    rw [(next_frame rd _).2.2.1, (next_frame rd _).1]
  | none =>
    cases hroot : s.root with
    | none =>
      have hne : ¬ (s.tasks.isEmpty = true) := by
        rw [List.isEmpty_iff]
        intro hnil
        rw [hnil] at hlt
        simp at hlt
      unfold save_and_next at h
      rw [if_neg (by omega), if_neg hne, hnm] at h
      dsimp only at h
      rw [hfm] at h
      dsimp only at h
      rw [hroot] at h
      exact absurd h (by simp)
    | some rootName =>
      rw [save_and_next_append rd val s _ rootName hcur hnm hfm hroot] at h
      obtain rfl := Option.some.inj h
      rw [(next_frame rd _).2.2.1, (next_frame rd _).1]

/-- C1 witness: the theorem applied to the concrete first-pass
session `sW`. -/
theorem C1_witness : sWafter.fileOnDisk = some (to_csv sWafter.df) :=
  C1_save_and_next_full_rewrite rdW 1 sW sWafter (by decide) (by decide)
    (by decide)

/-- C2: the recheck pass selects exactly the rows labeled unknown
(999) whose second label is missing (that second condition applying
when the `is_malignant_2nd` column exists), and no other rows. -/
theorem C2_recheck_targets_exact (df : Df) (f : String) :
    f ∈ recheckTargets df ↔
      ∃ r ∈ df.rows, r.filename = f ∧ r.is_malignant = some 999 ∧
        ("is_malignant_2nd" ∈ df.cols → r.is_malignant_2nd = none) := by
  unfold recheckTargets
  rw [List.mem_map]
  constructor
  · rintro ⟨r, hr, rfl⟩
    rw [List.mem_filter] at hr
    exact ⟨r, hr.1, rfl, recheckMask_eq_true.mp hr.2⟩
  · rintro ⟨r, hmem, rfl, h999, h2⟩
    exact ⟨r,
      List.mem_filter.mpr ⟨hmem, recheckMask_eq_true.mpr ⟨h999, h2⟩⟩, rfl⟩

/-- C2 witness: row `b` of the concrete store is selected. -/
theorem C2_witness : "b" ∈ recheckTargets dfW :=
  (C2_recheck_targets_exact dfW "b").mpr
    ⟨rowB, by decide, rfl, rfl, fun _ => rfl⟩

/-- C8: when the annotations CSV exists but cannot be parsed,
`_load_db` swallows the error and returns the same empty dataframe
with exactly the six schema columns as when the file does not exist. -/
theorem C8_load_db_swallows_parse_error :
    loadDb (some none) = loadDb none ∧
    (loadDb (some none)).cols =
      ["filename", "foldername", "is_malignant", "annotator",
       "is_malignant_2nd", "annotator_2nd"] ∧
    (loadDb (some none)).rows = [] :=
  ⟨rfl, rfl, rfl⟩

/-- C6: when reading the waveform record raises, `show_current`
catches the exception, shows an error label naming the task, clears
the canvas, and leaves the store dataframe, the task list and the
current index (indeed every other state component) unchanged. -/
theorem C6_show_current_read_failure (rd : String → Except String String)
    (s : AnnState) (name e : String)
    (h0 : 0 ≤ s.cur) (hlt : s.cur < (s.tasks.length : Int))
    (hnm : s.tasks[s.cur.toNat]? = some name)
    (herr : rd name = Except.error e) :
    show_current rd s =
      { s with
        status_label := "数据异常\n" ++ name
        status_bar := "读取失败: " ++ e
        canvas := none } := by
  unfold show_current
  rw [if_neg (by omega), if_neg (by omega), hnm]
  dsimp only
  rw [herr]

/-- C6 witness: the failing reader `rdE` on the session `sW`. -/
theorem C6_witness :
    show_current rdE sW =
      { sW with
        status_label := "数据异常\n" ++ "a"
        status_bar := "读取失败: " ++ "bad:a"
        canvas := none } :=
  C6_show_current_read_failure rdE sW "a" "bad:a" (by decide) (by decide)
    (by decide) (by rfl)

/-- C9: with a non-empty task list and `0 ≤ cur ≤ len - 1`, `next`
stays put at the last task and otherwise increments, `prev` stays put
at task 0 and otherwise decrements, both keep `cur` within
`[0, len - 1]`, and `show_current` is the identity whenever `cur` is
negative or past the end. -/
theorem C9_navigation_bounds (rd : String → Except String String)
    (s : AnnState)
    (hne : s.tasks ≠ []) (h0 : 0 ≤ s.cur)
    (hub : s.cur ≤ (s.tasks.length : Int) - 1) :
    ((next rd s).cur =
      if s.cur = (s.tasks.length : Int) - 1 then s.cur else s.cur + 1) ∧
    ((prev rd s).cur = if s.cur = 0 then s.cur else s.cur - 1) ∧
    (0 ≤ (next rd s).cur ∧ (next rd s).cur ≤ (s.tasks.length : Int) - 1) ∧
    (0 ≤ (prev rd s).cur ∧ (prev rd s).cur ≤ (s.tasks.length : Int) - 1) ∧
    (∀ s2 : AnnState,
      s2.cur < 0 ∨ (s2.tasks.length : Int) ≤ s2.cur →
        show_current rd s2 = s2) := by
  have hlen : 1 ≤ (s.tasks.length : Int) := by
    have h' : s.tasks.length ≠ 0 := by
      intro h0'
      exact hne (List.length_eq_zero.mp h0')
    omega
  refine ⟨?_, ?_, ?_, ?_, ?_⟩
  · rw [next_cur]
    by_cases h : s.cur = (s.tasks.length : Int) - 1
    · rw [if_pos (by omega), if_pos h]
    · rw [if_neg (by omega), if_neg h]
  · rw [prev_cur]
    by_cases h : s.cur = 0
    · rw [if_pos (by omega), if_pos h]
    · rw [if_neg (by omega), if_neg h]
  · rw [next_cur]
    constructor <;> (split <;> omega)
  · rw [prev_cur]
    constructor <;> (split <;> omega)
  · intro s2 h2
    unfold show_current
    rcases h2 with h2 | h2
    · rw [if_pos h2]
    · rw [if_neg (by omega), if_pos (by omega : s2.cur ≥ (s2.tasks.length : Int))]

/-- C9 witness: navigation from the first of the three tasks of `sW`. -/
theorem C9_witness :
    ((next rdW sW).cur =
      if sW.cur = (sW.tasks.length : Int) - 1 then sW.cur else sW.cur + 1) ∧
    ((prev rdW sW).cur = if sW.cur = 0 then sW.cur else sW.cur - 1) :=
  ⟨(C9_navigation_bounds rdW sW (by decide) (by decide) (by decide)).1,
   (C9_navigation_bounds rdW sW (by decide) (by decide) (by decide)).2.1⟩

/-- C10: `start_recheck` keeps, of the rows needing recheck and in
store row order, exactly those whose folder exists under the root; a
row whose folder is absent is dropped from the task list but its store
row is untouched, so it still needs recheck afterwards. -/
theorem C10_recheck_skips_missing (rd : String → Except String String)
    (pk : Option String) (ex : String → Bool) (s : AnnState)
    (rootName : String)
    (hroot : s.root = some rootName)
    (hne : s.df.rows ≠ [])
    (ht : recheckTargets s.df ≠ []) :
    (start_recheck rd pk ex s).tasks = (recheckTargets s.df).filter ex ∧
    (start_recheck rd pk ex s).df = s.df ∧
    (∀ f, f ∈ recheckTargets s.df → ex f = false →
      f ∉ (start_recheck rd pk ex s).tasks ∧
      f ∈ recheckTargets (start_recheck rd pk ex s).df) := by
  have h1 : ¬ (s.df.rows.isEmpty = true) := by
    rw [List.isEmpty_iff]
    exact hne
  have h2 : ¬ ((recheckTargets s.df).isEmpty = true) := by
    rw [List.isEmpty_iff]
    exact ht
  have key : start_recheck rd pk ex s =
      show_current rd
        { s with
          root := some rootName
          tasks := (recheckTargets s.df).filter ex
          recheck_mode := true
          cur := 0 } := by
    unfold start_recheck
    rw [if_neg h1]
    dsimp only
    rw [if_neg h2, hroot]
  rw [key]
  refine ⟨?_, ?_, ?_⟩
  · rw [(show_current_frame rd _).2.1]
  · rw [(show_current_frame rd _).1]
  · intro f hf hex
    constructor
    · rw [(show_current_frame rd _).2.1]
      intro hmem
      have hmem' : f ∈ (recheckTargets s.df).filter ex := hmem
      rw [List.mem_filter, hex] at hmem'
      exact absurd hmem'.2 (by simp)
    · rw [(show_current_frame rd _).1]
      exact hf

/-- C10 witness: of the two rows needing recheck in `sRk`, only `b`
has a folder; `c` is skipped but still needs recheck. -/
theorem C10_witness :
    (start_recheck rdW none exW sRk).tasks =
      (recheckTargets sRk.df).filter exW ∧
    ("c" ∉ (start_recheck rdW none exW sRk).tasks ∧
      "c" ∈ recheckTargets (start_recheck rdW none exW sRk).df) :=
  ⟨(C10_recheck_skips_missing rdW none exW sRk "root" (by decide)
      (by decide) (by decide)).1,
   (C10_recheck_skips_missing rdW none exW sRk "root" (by decide)
      (by decide) (by decide)).2.2 "c" (by decide) (by decide)⟩

/-- C3 counterexample: the claim says first-pass labeling adds a row
for every store and current task, but on a store that already holds a
row for the current task's filename (reachable by pressing `prev` and
relabeling) the first-pass branch mutates in place: here the row count
stays 2 instead of growing. -/
theorem C3_counterexample :
    sW.recheck_mode = false ∧ sW.df.rows.length = 2 ∧
    (save_and_next rdW 1 sW).map (fun t => t.df.rows.length) = some 2 :=
  ⟨rfl, rfl, by decide⟩

/-- C3 (amended): `save_and_next` mutates in place exactly when a row
with the task's filename exists — recheck mode writing the second-pass
cells, first-pass mode overwriting `is_malignant` and `annotator` —
and appends the new first-pass row exactly when no such row exists. -/
theorem C3_save_append_or_mutate (rd : String → Except String String)
    (val : Int) (s s' : AnnState) (name : String)
    (hcur : 0 ≤ s.cur)
    (hnm : s.tasks[s.cur.toNat]? = some name)
    (h : save_and_next rd val s = some s') :
    (∀ idx r, firstMatchIdx name s.df.rows = some idx →
      s.df.rows[idx]? = some r →
      s'.df.rows =
        s.df.rows.set idx (applyLabel s.recheck_mode s.user val r) ∧
      (s.recheck_mode = true →
        applyLabel s.recheck_mode s.user val r =
          { r with is_malignant_2nd := some val,
                   annotator_2nd := some s.user }) ∧
      (s.recheck_mode = false →
        applyLabel s.recheck_mode s.user val r =
          { r with is_malignant := some val,
                   annotator := some s.user })) ∧
    (firstMatchIdx name s.df.rows = none →
      ∀ rootName, s.root = some rootName →
        s'.df.rows = s.df.rows ++ [newRow name rootName val s.user]) := by
  constructor
  · intro idx r hfm hr
    rw [save_and_next_found rd val s name idx r hcur hnm hfm hr] at h
    obtain rfl := Option.some.inj h
    refine ⟨by rw [(next_frame rd _).1]; rfl, ?_, ?_⟩
    · intro hm
      simp [applyLabel, hm]
    · intro hm
      simp [applyLabel, hm]
  · intro hfm rootName hroot
    rw [save_and_next_append rd val s name rootName hcur hnm hfm hroot] at h
    obtain rfl := Option.some.inj h
    rw [(next_frame rd _).1]
    rfl

/-- C3 witness: labeling the fresh task `c` appends its row. -/
theorem C3_witness :
    sWcafter.df.rows = dfW.rows ++ [newRow "c" "root" 1 "u2"] :=
  (C3_save_append_or_mutate rdW 1 { sW with cur := 2 } sWcafter "c"
      (by decide) (by decide) (by decide)).2 (by decide) "root" (by decide)

/-- C4: starting from a store with pairwise-distinct filenames, any
completed `save_and_next` call preserves the at-most-one-row-per-
filename invariant (a new row is appended only when the lookup finds
no row with that filename). -/
theorem C4_filename_uniqueness (rd : String → Except String String)
    (val : Int) (s s' : AnnState)
    (hnodup : (s.df.rows.map Row.filename).Nodup)
    (h : save_and_next rd val s = some s') :
    (s'.df.rows.map Row.filename).Nodup := by
  by_cases h0 : s.cur < 0
  · unfold save_and_next at h
    rw [if_pos h0] at h
    obtain rfl := Option.some.inj h
    exact hnodup
  · by_cases hemp : s.tasks.isEmpty = true
    · unfold save_and_next at h
      rw [if_neg h0, if_pos hemp] at h
      obtain rfl := Option.some.inj h
      exact hnodup
    · cases hnm : s.tasks[s.cur.toNat]? with
      | none =>
        unfold save_and_next at h
        rw [if_neg h0, if_neg hemp, hnm] at h
        exact absurd h (by simp)
      | some name =>
        cases hfm : firstMatchIdx name s.df.rows with
        | some idx =>
          obtain ⟨r, hr, -⟩ := firstMatchIdx_some hfm
          rw [save_and_next_found rd val s name idx r (by omega) hnm hfm hr]
            at h
          obtain rfl := Option.some.inj h
          rw [(next_frame rd _).1]
          have hfn : (applyLabel s.recheck_mode s.user val r).filename =
              r.filename := by
            unfold applyLabel
            split <;> rfl
          have key : ((s.df.rows.set idx
              (applyLabel s.recheck_mode s.user val r)).map
                Row.filename).Nodup := by
            rw [map_filename_set hr hfn]
            exact hnodup
          exact key
        | none =>
          cases hroot : s.root with
          | none =>
            unfold save_and_next at h
            rw [if_neg h0, if_neg hemp, hnm] at h
            dsimp only at h
            rw [hfm] at h
            dsimp only at h
            rw [hroot] at h
            exact absurd h (by simp)
          | some rootName =>
            rw [save_and_next_append rd val s name rootName (by omega)
              hnm hfm hroot] at h
            obtain rfl := Option.some.inj h
            rw [(next_frame rd _).1]
            have hnotin : name ∉ s.df.rows.map Row.filename := by
              intro hmem
              obtain ⟨rr, hrr, hra⟩ := List.mem_map.mp hmem
              exact firstMatchIdx_none hfm rr hrr hra
            have key : ((s.df.rows ++
                [newRow name rootName val s.user]).map Row.filename).Nodup := by
              rw [List.map_append, List.nodup_append]
              refine ⟨hnodup, by simp, ?_⟩
              intro a ha hb
              simp [newRow] at hb
              subst hb
              exact hnotin ha
            exact key

/-- C4 witness: the invariant after relabeling task `a` of `sW`. -/
theorem C4_witness : (sWafter.df.rows.map Row.filename).Nodup :=
  C4_filename_uniqueness rdW 1 sW sWafter (by decide) (by decide)

/-- C7: a `save_and_next` on an existing row leaves every other row
untouched; in recheck mode only the two second-pass cells of the found
row change, in first-pass mode only `is_malignant` and `annotator`
change (the second-pass cells survive). -/
theorem C7_pass_isolation (rd : String → Except String String)
    (val : Int) (s s' : AnnState) (name : String) (idx : Nat) (r : Row)
    (hcur : 0 ≤ s.cur)
    (hnm : s.tasks[s.cur.toNat]? = some name)
    (hfm : firstMatchIdx name s.df.rows = some idx)
    (hr : s.df.rows[idx]? = some r)
    (h : save_and_next rd val s = some s') :
    (∀ j, j ≠ idx → s'.df.rows[j]? = s.df.rows[j]?) ∧
    (s.recheck_mode = true →
      s'.df.rows[idx]? =
        some { r with is_malignant_2nd := some val,
                      annotator_2nd := some s.user }) ∧
    (s.recheck_mode = false →
      s'.df.rows[idx]? =
        some { r with is_malignant := some val,
                      annotator := some s.user }) := by
  rw [save_and_next_found rd val s name idx r hcur hnm hfm hr] at h
  obtain rfl := Option.some.inj h
  have hidx : idx < s.df.rows.length := by
    by_contra hge
    rw [List.getElem?_eq_none (by omega)] at hr
    exact absurd hr (by simp)
  have hrows : (next rd
      { s with
        df := foundDf s.df s.recheck_mode s.user val idx r
        fileOnDisk :=
          some (to_csv (foundDf s.df s.recheck_mode s.user val idx r)) }).df.rows
      = s.df.rows.set idx (applyLabel s.recheck_mode s.user val r) := by
    rw [(next_frame rd _).1]
    rfl
  refine ⟨?_, ?_, ?_⟩
  · intro j hj
    rw [hrows, List.getElem?_set_ne (Ne.symm hj)]
  · intro hm
    rw [hrows, List.getElem?_set, if_pos rfl, if_pos hidx]
    simp [applyLabel, hm]
  · intro hm
    rw [hrows, List.getElem?_set, if_pos rfl, if_pos hidx]
    simp [applyLabel, hm]

/-- C7 witness: the recheck write to row `b` leaves row `a` and the
first-pass cells of `b` intact. -/
theorem C7_witness :
    sRafter.df.rows[0]? = sR.df.rows[0]? ∧
    sRafter.df.rows[1]? =
      some { rowB with is_malignant_2nd := some 7,
                       annotator_2nd := some "u2" } :=
  ⟨(C7_pass_isolation rdW 7 sR sRafter "b" 1 rowB (by decide) (by decide)
      (by decide) (by decide) (by decide)).1 0 (by decide),
   (C7_pass_isolation rdW 7 sR sRafter "b" 1 rowB (by decide) (by decide)
      (by decide) (by decide) (by decide)).2.1 rfl⟩

/-- C5: after `import_folder` with a chosen root, the task list holds
exactly the sub-folders of the root whose names are not already in the
store's filename column, recheck mode is off and the store is
untouched; the current index moves to the first task when there is
one, and otherwise the (empty) task list is installed with the index,
canvas and label untouched. -/
theorem C5_import_folder_skips_labeled (rd : String → Except String String)
    (p : String) (subdirs : List String) (s : AnnState) :
    (import_folder rd (some p) subdirs s).df = s.df ∧
    (import_folder rd (some p) subdirs s).recheck_mode = false ∧
    (∀ d, d ∈ (import_folder rd (some p) subdirs s).tasks ↔
      d ∈ subdirs ∧ d ∉ s.df.rows.map Row.filename) ∧
    ((import_folder rd (some p) subdirs s).tasks ≠ [] →
      (import_folder rd (some p) subdirs s).cur = 0) ∧
    ((import_folder rd (some p) subdirs s).tasks = [] →
      (import_folder rd (some p) subdirs s).cur = s.cur ∧
      (import_folder rd (some p) subdirs s).canvas = s.canvas ∧
      (import_folder rd (some p) subdirs s).status_label = s.status_label) := by
  have hmem : ∀ d, d ∈ (subdirs.mergeSort (fun a b => decide (a ≤ b))).filter
      (fun d => !((s.df.rows.map Row.filename).contains d)) ↔
      d ∈ subdirs ∧ d ∉ s.df.rows.map Row.filename := by
    intro d
    rw [List.mem_filter, List.mem_mergeSort]
    simp
  by_cases hemp : ((subdirs.mergeSort (fun a b => decide (a ≤ b))).filter
      (fun d => !((s.df.rows.map Row.filename).contains d))).isEmpty = true
  · have key : import_folder rd (some p) subdirs s =
        { s with
          root := some p
          recheck_mode := false
          tasks := (subdirs.mergeSort (fun a b => decide (a ≤ b))).filter
            (fun d => !((s.df.rows.map Row.filename).contains d)) } := by
      unfold import_folder
      dsimp only
      rw [if_pos hemp]
    rw [key]
    refine ⟨rfl, rfl, hmem, ?_, fun _ => ⟨rfl, rfl, rfl⟩⟩
    intro hne
    exact absurd (List.isEmpty_iff.mp hemp) hne
  · have key : import_folder rd (some p) subdirs s =
        show_current rd
          { s with
            root := some p
            recheck_mode := false
            tasks := (subdirs.mergeSort (fun a b => decide (a ≤ b))).filter
              (fun d => !((s.df.rows.map Row.filename).contains d))
            cur := 0 } := by
      unfold import_folder
      dsimp only
      rw [if_neg hemp]
    rw [key]
    refine ⟨(show_current_frame rd _).1, ?_, ?_, ?_, ?_⟩
    · rw [(show_current_frame rd _).2.2.2.2.1]
    · intro d
      rw [(show_current_frame rd _).2.1]
      exact hmem d
    · intro h'
      rw [(show_current_frame rd _).2.2.1]
    · intro h'
      rw [(show_current_frame rd _).2.1] at h'
      exact absurd (List.isEmpty_iff.mpr h') hemp

/-- C5 witness: importing `c`, `a`, `b` over the store holding `a`,
`b` leaves task `c` first with recheck mode off. -/
theorem C5_witness :
    (import_folder rdW (some "root") ["c", "a", "b"] sW).cur = 0 ∧
    (import_folder rdW (some "root") ["c", "a", "b"] sW).recheck_mode =
      false :=
  ⟨(C5_import_folder_skips_labeled rdW "root" ["c", "a", "b"] sW).2.2.2.1
      (List.ne_nil_of_mem
        (((C5_import_folder_skips_labeled rdW "root" ["c", "a", "b"] sW).2.2.1
          "c").mpr ⟨by decide, by decide⟩)),
   (C5_import_folder_skips_labeled rdW "root" ["c", "a", "b"] sW).2.1⟩

end HumanCheck
